import Mathlib

set_option linter.unusedVariables false

/-!
Verification of the riscv-python RV32IMAC emulator core against its
natural-language specification.

The definitions below are a shallow embedding of the Python sources:

  * ram.py     : class RAM (the fast, unchecked variant) — byte/half/word
                 loads and stores over a bytearray of size + padding bytes,
                 raising MemoryAccessError (modelled as Option.none /
                 StoreRes.oob) on out-of-range indexing;
  * cpu.py     : the opcode handlers (exec_Rtype, exec_Itype, exec_loads,
                 exec_stores, exec_branches, exec_LUI, exec_AUIPC, exec_JAL,
                 exec_JALR, exec_SYSTEM, exec_MISCMEM, exec_AMO), the CPU
                 state, trap handling, and the machine-timer logic;
  * the step loop of the Machine class (absent from the sources; modelled
    from the specification, see Machine.step below).

Python integers are unbounded, so machine words are modelled as Nat with
explicit masking exactly where the source masks, and signed quantities as
Int.  Python idioms that involve negative operands of bitwise operators are
translated through the identities noted in comments at each site (for any
int v and n > 0, Python v & (2^n - 1) equals v mod 2^n; v >> k is floor
division by 2^k; v & ~3 clears the two lowest bits).
-/

/-- Python masking idiom: for any int v, v & (2^n - 1) = v mod 2^n
(Python ints are unbounded two's complement, so the bitwise AND with a
mask of n ones is exactly the non-negative remainder mod 2^n). -/
def imask (v : Int) (n : Nat) : Nat := (v % ((2:Int) ^ n)).toNat

/-- cpu.py signed32: reinterpret a 32-bit unsigned value as signed.
The source is `val if val < 0x80000000 else val - 0x100000000`. -/
def signed32 (v : Int) : Int := if v < 0x80000000 then v else v - 0x100000000

/-- Python `x & ~mask` for non-negative x and mask: clear the mask bits.
Since the mask bits of x form the summand x &&& mask, clearing them is
subtraction. -/
def clearBits (x mask : Nat) : Nat := x - (x &&& mask)

/-- Python `rs1_val & ~0x3` (cpu.py masks the two low bits of mtvec away):
clear bits 0 and 1. -/
def clearLow2 (x : Nat) : Nat := (x >>> 2) <<< 2

/-- ram.py class RAM (fast variant): a bytearray of size + padding bytes.
The constructor allocates `bytearray(size + padding)` with default
padding=4, zero-filled. -/
structure RAM where
  memory : List Nat
  size : Nat

/-- RAM(size) with the default padding of 4 bytes: a zero-filled backing
buffer of size + 4 bytes. -/
def mkRAM (size : Nat) : RAM := ⟨List.replicate (size + 4) 0, size⟩

/-- Byte of the backing buffer (defined where the index is in range). -/
def RAM.byte (ram : RAM) (addr : Nat) : Nat := ram.memory.getD addr 0

/-- Result of a store: ok, or MemoryAccessError. The error carries the
RAM state reached so far, because the Python bytearray is mutated in place
byte by byte before the IndexError is raised. -/
inductive StoreRes where
  | ok (ram : RAM)
  | oob (ram : RAM)

/-- ram.py RAM.load_byte: `val = self.memory[addr]`, sign-extension
`val if not signed or val < 0x80 else val - 0x100`; IndexError on
out-of-range indexing becomes none. -/
def RAM.load_byte (ram : RAM) (addr : Nat) (signed : Bool) : Option Int :=
  match ram.memory[addr]? with
  | some val => some (if !signed || decide (val < 0x80) then (val : Int) else (val : Int) - 0x100)
  | none => none

/-- ram.py RAM.load_half: `val = self.memory[addr] | (self.memory[addr+1] << 8)`,
sign-extension against 0x8000. -/
def RAM.load_half (ram : RAM) (addr : Nat) (signed : Bool) : Option Int :=
  match ram.memory[addr]?, ram.memory[addr+1]? with
  | some b0, some b1 =>
    let val := b0 ||| (b1 <<< 8)
    some (if !signed || decide (val < 0x8000) then (val : Int) else (val : Int) - 0x10000)
  | _, _ => none

/-- ram.py RAM.load_word (always unsigned): word-aligned accesses go
through the 32-bit memoryview (length = buffer length / 4 words);
unaligned accesses assemble four bytes. -/
def RAM.load_word (ram : RAM) (addr : Nat) : Option Nat :=
  if addr &&& 0x3 = 0 then
    if addr >>> 2 < ram.memory.length / 4 then
      some (ram.byte addr ||| (ram.byte (addr+1) <<< 8) ||| (ram.byte (addr+2) <<< 16) ||| (ram.byte (addr+3) <<< 24))
    else none
  else
    match ram.memory[addr]?, ram.memory[addr+1]?, ram.memory[addr+2]?, ram.memory[addr+3]? with
    | some b0, some b1, some b2, some b3 => some (b0 ||| (b1 <<< 8) ||| (b2 <<< 16) ||| (b3 <<< 24))
    | _, _, _, _ => none

/-- ram.py RAM.store_byte: `self.memory[addr] = value & 0xFF`. -/
def RAM.store_byte (ram : RAM) (addr value : Nat) : StoreRes :=
  if addr < ram.memory.length then
    .ok { ram with memory := ram.memory.set addr (value &&& 0xFF) }
  else .oob ram

/-- ram.py RAM.store_half: two sequential byte assignments (the first may
land before the second raises). -/
def RAM.store_half (ram : RAM) (addr value : Nat) : StoreRes :=
  let value := value &&& 0xFFFF
  if addr < ram.memory.length then
    let ram1 : RAM := { ram with memory := ram.memory.set addr (value &&& 0xFF) }
    if addr + 1 < ram1.memory.length then
      .ok { ram1 with memory := ram1.memory.set (addr+1) ((value >>> 8) &&& 0xFF) }
    else .oob ram1
  else .oob ram

/-- ram.py RAM.store_word: aligned stores go through the 32-bit view,
unaligned stores are four sequential byte assignments. -/
def RAM.store_word (ram : RAM) (addr value : Nat) : StoreRes :=
  let value := value &&& 0xFFFFFFFF
  if addr &&& 0x3 = 0 then
    if addr >>> 2 < ram.memory.length / 4 then
      .ok { ram with memory :=
        ((((ram.memory.set addr (value &&& 0xFF)).set (addr+1) ((value >>> 8) &&& 0xFF)).set
          (addr+2) ((value >>> 16) &&& 0xFF)).set (addr+3) ((value >>> 24) &&& 0xFF)) }
    else .oob ram
  else
    if addr < ram.memory.length then
      let r1 : RAM := { ram with memory := ram.memory.set addr (value &&& 0xFF) }
      if addr + 1 < r1.memory.length then
        let r2 : RAM := { r1 with memory := r1.memory.set (addr+1) ((value >>> 8) &&& 0xFF) }
        if addr + 2 < r2.memory.length then
          let r3 : RAM := { r2 with memory := r2.memory.set (addr+2) ((value >>> 16) &&& 0xFF) }
          if addr + 3 < r3.memory.length then
            .ok { r3 with memory := r3.memory.set (addr+3) ((value >>> 24) &&& 0xFF) }
          else .oob r3
        else .oob r2
      else .oob r1
    else .oob ram

/-- cpu.py class CPU: architectural state. The Python object owns a
reference to its RAM, so the RAM is a field here. The decode caches are
omitted: they are content-addressed and semantically transparent (a cache
hit returns exactly the fields the decoder would recompute). -/
structure CPU where
  registers : Nat → Nat
  pc : Nat
  next_pc : Nat
  inst_size : Nat
  alignment_mask : Nat
  reservation_valid : Bool
  reservation_addr : Nat
  csrs : Nat → Nat
  mtime : Nat
  mtimecmp : Nat
  mtime_lo_updated : Bool
  mtime_hi_updated : Bool
  mtimecmp_lo_updated : Bool
  mtimecmp_hi_updated : Bool
  mtip : Bool
  mtime_countdown : Int
  ram : RAM

/-- cpu.py CSR_RO: read-only CSRs whose (effective) writes trap. -/
def csrRO (c : Nat) : Prop := c = 0xF11 ∨ c = 0xF12 ∨ c = 0xF13 ∨ c = 0xF14

instance (c : Nat) : Decidable (csrRO c) := by unfold csrRO; infer_instance

/-- cpu.py CSR_NOWRITE: CSRs whose writes are silently ignored. -/
def csrNoWrite (c : Nat) : Prop :=
  c = 0x301 ∨ c = 0xB02 ∨ c = 0xB82 ∨ c = 0x7A0 ∨ c = 0x7A1 ∨ c = 0x7A2

instance (c : Nat) : Decidable (csrNoWrite c) := by unfold csrNoWrite; infer_instance

/-- Write a general-purpose register (cpu.registers[rd] = v). -/
def setReg (m : CPU) (rd v : Nat) : CPU :=
  { m with registers := fun j => if j = rd then v else m.registers j }

/-- Write a CSR (cpu.csrs[c] = v). -/
def setCsr (m : CPU) (c v : Nat) : CPU :=
  { m with csrs := fun j => if j = c then v else m.csrs j }

/-- The CSR operand of a CSR instruction: the rs1 register value for the
register forms (funct3 < 0b101), the zero-extended 5-bit rs1 field itself
for the immediate forms. -/
def csrOperand (m : CPU) (funct3 rs1 : Nat) : Nat :=
  if funct3 < 0b101 then m.registers rs1 else rs1

/-- Reasons an instruction aborts the step by raising a Python exception:
ExecutionTerminated (trap with no handler, EBREAK without handler),
MemoryAccessError from the RAM, or MachineError (ECALL with neither trap
handler nor ecall callback). -/
inductive StopKind where
  | terminated
  | memError
  | machineError
deriving DecidableEq

/-- Result of executing one instruction (or one machine step): either the
mutated CPU, or an exception together with the CPU state already mutated
up to the raise point (the Python object is mutated in place). -/
inductive Res where
  | ok (m : CPU)
  | stop (k : StopKind) (m : CPU)

/-- The CPU state carried by a result (mutations before a raise stick). -/
def resMach (r : Res) : CPU :=
  match r with
  | .ok m => m
  | .stop _ m => m

/-- CSR projection of a result. -/
def resCsr (r : Res) (c : Nat) : Nat := (resMach r).csrs c

/-- Whether a result is an ExecutionTerminated stop. -/
def isTerminated (r : Res) : Bool :=
  match r with
  | .stop .terminated _ => true
  | _ => false

/-- cpu.py CPU.trap: raise ExecutionTerminated when no trap handler is
installed (mtvec = 0); otherwise record mepc (pc for synchronous traps,
next_pc for asynchronous ones), mcause, mtval, swap MIE into MPIE,
clear MIE, and redirect next_pc to mtvec with its mode bits cleared. -/
def CPU.trap (m : CPU) (cause mtval : Nat) (sync : Bool) : Res :=
  if m.csrs 0x305 = 0 then .stop .terminated m
  else
    let m := setCsr m 0x341 (if sync then m.pc else m.next_pc)
    let m := setCsr m 0x342 cause
    let m := setCsr m 0x343 mtval
    let mstatus := m.csrs 0x300
    let mie := (mstatus >>> 3) &&& 1
    let mstatus := clearBits mstatus 0x88    -- Python: mstatus &= ~(1<<3 | 1<<7)
    let mstatus := mstatus ||| (mie <<< 7)
    let m := setCsr m 0x300 mstatus
    .ok { m with next_pc := clearLow2 (m.csrs 0x305) }

/-- cpu.py CPU.bypassed_trap_return: side effects of trap followed by mret,
used when the emulator itself handles a trap. -/
def CPU.bypassed_trap_return (m : CPU) (cause mtval : Nat) : CPU :=
  let m := setCsr m 0x341 m.pc
  let m := setCsr m 0x342 cause
  let m := setCsr m 0x343 mtval
  setCsr m 0x300 (m.csrs 0x300 ||| (1 <<< 7))

/-- cpu.py exec_Rtype: R-type ALU operations including the M extension.
Python int(a / b) truncates the float quotient toward zero; for operands
of magnitude below 2^32 the float result never crosses an integer
boundary, so it equals exact truncating division, Int.tdiv. -/
def exec_Rtype (m : CPU) (inst rd funct3 rs1 rs2 funct7 : Nat) : Res :=
  if funct3 = 0x0 then       -- ADD/SUB/MUL
    if funct7 = 0x01 then    -- MUL
      .ok (setReg m rd (imask (signed32 (m.registers rs1) * signed32 (m.registers rs2)) 32))
    else if funct7 = 0x00 then  -- ADD
      .ok (setReg m rd ((m.registers rs1 + m.registers rs2) &&& 0xFFFFFFFF))
    else if funct7 = 0x20 then  -- SUB (the Python difference may be negative)
      .ok (setReg m rd (imask ((m.registers rs1 : Int) - (m.registers rs2 : Int)) 32))
    else CPU.trap m 2 inst true
  else if funct3 = 0x1 then  -- SLL/MULH
    if funct7 = 0x01 then    -- MULH (Python >> 32 on an int is floor division by 2^32)
      .ok (setReg m rd (imask (Int.fdiv (signed32 (m.registers rs1) * signed32 (m.registers rs2)) (2 ^ 32)) 32))
    else if funct7 = 0x00 then  -- SLL
      .ok (setReg m rd ((m.registers rs1 <<< (m.registers rs2 &&& 0x1F)) &&& 0xFFFFFFFF))
    else CPU.trap m 2 inst true
  else if funct3 = 0x2 then  -- SLT/MULHSU
    if funct7 = 0x01 then    -- MULHSU
      .ok (setReg m rd (imask (Int.fdiv (signed32 (m.registers rs1) * ((m.registers rs2 &&& 0xFFFFFFFF : Nat) : Int)) (2 ^ 32)) 32))
    else if funct7 = 0x00 then  -- SLT
      .ok (setReg m rd (if signed32 (m.registers rs1) < signed32 (m.registers rs2) then 1 else 0))
    else CPU.trap m 2 inst true
  else if funct3 = 0x3 then  -- SLTU/MULHU
    if funct7 = 0x01 then    -- MULHU
      .ok (setReg m rd ((((m.registers rs1 &&& 0xFFFFFFFF) * (m.registers rs2 &&& 0xFFFFFFFF)) >>> 32) &&& 0xFFFFFFFF))
    else if funct7 = 0x00 then  -- SLTU
      .ok (setReg m rd (if (m.registers rs1 &&& 0xFFFFFFFF) < (m.registers rs2 &&& 0xFFFFFFFF) then 1 else 0))
    else CPU.trap m 2 inst true
  else if funct3 = 0x4 then  -- XOR/DIV
    if funct7 = 0x01 then    -- DIV
      let dividend := signed32 (m.registers rs1)
      let divisor := signed32 (m.registers rs2)
      if divisor = 0 then .ok (setReg m rd 0xFFFFFFFF)
      else if dividend = -2147483648 ∧ divisor = -1 then .ok (setReg m rd 0x80000000)
      else .ok (setReg m rd (imask (Int.tdiv dividend divisor) 32))
    else if funct7 = 0x00 then  -- XOR (no mask in the source)
      .ok (setReg m rd (m.registers rs1 ^^^ m.registers rs2))
    else CPU.trap m 2 inst true
  else if funct3 = 0x5 then  -- SRL/SRA/DIVU
    if funct7 = 0x01 then    -- DIVU
      let dividend := m.registers rs1 &&& 0xFFFFFFFF
      let divisor := m.registers rs2 &&& 0xFFFFFFFF
      if divisor = 0 then .ok (setReg m rd 0xFFFFFFFF)
      else .ok (setReg m rd ((dividend / divisor) &&& 0xFFFFFFFF))
    else
      let shamt := m.registers rs2 &&& 0x1F
      if funct7 = 0x00 then  -- SRL
        .ok (setReg m rd ((m.registers rs1 &&& 0xFFFFFFFF) >>> shamt))
      else if funct7 = 0x20 then  -- SRA (Python >> on an int is floor division)
        .ok (setReg m rd (imask (Int.fdiv (signed32 (m.registers rs1)) (2 ^ shamt)) 32))
      else CPU.trap m 2 inst true
  else if funct3 = 0x6 then  -- OR/REM
    if funct7 = 0x01 then    -- REM
      let dividend := signed32 (m.registers rs1)
      let divisor := signed32 (m.registers rs2)
      if divisor = 0 then .ok (setReg m rd (m.registers rs1 &&& 0xFFFFFFFF))
      else if dividend = -2147483648 ∧ divisor = -1 then .ok (setReg m rd 0)
      else .ok (setReg m rd (imask (dividend - Int.tdiv dividend divisor * divisor) 32))
    else if funct7 = 0x00 then  -- OR (no mask in the source)
      .ok (setReg m rd (m.registers rs1 ||| m.registers rs2))
    else CPU.trap m 2 inst true
  else                       -- funct3 = 0x7: AND/REMU
    if funct7 = 0x01 then    -- REMU
      let dividend := m.registers rs1 &&& 0xFFFFFFFF
      let divisor := m.registers rs2 &&& 0xFFFFFFFF
      if divisor = 0 then .ok (setReg m rd (m.registers rs1 &&& 0xFFFFFFFF))
      else .ok (setReg m rd ((dividend % divisor) &&& 0xFFFFFFFF))
    else if funct7 = 0x00 then  -- AND (no mask in the source)
      .ok (setReg m rd (m.registers rs1 &&& m.registers rs2))
    else CPU.trap m 2 inst true

/-- The sign-extended 12-bit I-type immediate:
imm_i = inst >> 20; if imm_i >= 0x800: imm_i -= 0x1000. -/
def immI (inst : Nat) : Int :=
  if inst >>> 20 ≥ 0x800 then (inst >>> 20 : Nat) - 0x1000 else (inst >>> 20 : Nat)

/-- cpu.py exec_Itype: immediate ALU operations. Python bitwise ops on a
negative immediate are infinite two's complement and commute with
truncation mod 2^32, so the immediate enters as its 32-bit image. -/
def exec_Itype (m : CPU) (inst rd funct3 rs1 rs2 funct7 : Nat) : Res :=
  let imm_i := immI inst
  if funct3 = 0x0 then       -- ADDI
    .ok (setReg m rd (imask ((m.registers rs1 : Int) + imm_i) 32))
  else if funct3 = 0x1 then  -- SLLI
    if funct7 = 0x00 then
      .ok (setReg m rd ((m.registers rs1 <<< imask imm_i 5) &&& 0xFFFFFFFF))
    else CPU.trap m 2 inst true
  else if funct3 = 0x2 then  -- SLTI
    .ok (setReg m rd (if signed32 (m.registers rs1) < signed32 imm_i then 1 else 0))
  else if funct3 = 0x3 then  -- SLTIU
    .ok (setReg m rd (if (m.registers rs1 &&& 0xFFFFFFFF) < imask imm_i 32 then 1 else 0))
  else if funct3 = 0x4 then  -- XORI
    .ok (setReg m rd (((m.registers rs1) ^^^ imask imm_i 32) &&& 0xFFFFFFFF))
  else if funct3 = 0x5 then  -- SRLI/SRAI
    let shamt := imask imm_i 5
    if funct7 = 0x00 then
      .ok (setReg m rd ((m.registers rs1 &&& 0xFFFFFFFF) >>> shamt))
    else if funct7 = 0x20 then
      .ok (setReg m rd (imask (Int.fdiv (signed32 (m.registers rs1)) (2 ^ shamt)) 32))
    else CPU.trap m 2 inst true
  else if funct3 = 0x6 then  -- ORI
    .ok (setReg m rd (((m.registers rs1) ||| imask imm_i 32) &&& 0xFFFFFFFF))
  else                       -- funct3 = 0x7: ANDI
    .ok (setReg m rd (((m.registers rs1) &&& imask imm_i 32) &&& 0xFFFFFFFF))

/-- cpu.py exec_loads. -/
def exec_loads (m : CPU) (inst rd funct3 rs1 rs2 funct7 : Nat) : Res :=
  let addr := imask ((m.registers rs1 : Int) + immI inst) 32
  if funct3 = 0x0 then       -- LB
    match m.ram.load_byte addr true with
    | some v => .ok (setReg m rd (imask v 32))
    | none => .stop .memError m
  else if funct3 = 0x1 then  -- LH
    match m.ram.load_half addr true with
    | some v => .ok (setReg m rd (imask v 32))
    | none => .stop .memError m
  else if funct3 = 0x2 then  -- LW
    match m.ram.load_word addr with
    | some v => .ok (setReg m rd (v &&& 0xFFFFFFFF))
    | none => .stop .memError m
  else if funct3 = 0x4 then  -- LBU
    match m.ram.load_byte addr false with
    | some v => .ok (setReg m rd (imask v 8))
    | none => .stop .memError m
  else if funct3 = 0x5 then  -- LHU
    match m.ram.load_half addr false with
    | some v => .ok (setReg m rd (imask v 16))
    | none => .stop .memError m
  else CPU.trap m 2 inst true

/-- The sign-extended 12-bit S-type immediate:
imm_s = ((inst >> 7) & 0x1F) | ((inst >> 25) << 5), sign-extended. -/
def immS (inst : Nat) : Int :=
  let raw := ((inst >>> 7) &&& 0x1F) ||| ((inst >>> 25) <<< 5)
  if raw ≥ 0x800 then (raw : Int) - 0x1000 else (raw : Int)

/-- cpu.py exec_stores: SB/SH/SW; each store clears the LR/SC
reservation. -/
def exec_stores (m : CPU) (inst rd funct3 rs1 rs2 funct7 : Nat) : Res :=
  let addr := imask ((m.registers rs1 : Int) + immS inst) 32
  if funct3 = 0x0 then       -- SB
    match m.ram.store_byte addr (m.registers rs2 &&& 0xFF) with
    | .ok ram => .ok { m with ram := ram, reservation_valid := false }
    | .oob ram => .stop .memError { m with ram := ram }
  else if funct3 = 0x1 then  -- SH
    match m.ram.store_half addr (m.registers rs2 &&& 0xFFFF) with
    | .ok ram => .ok { m with ram := ram, reservation_valid := false }
    | .oob ram => .stop .memError { m with ram := ram }
  else if funct3 = 0x2 then  -- SW
    match m.ram.store_word addr (m.registers rs2) with
    | .ok ram => .ok { m with ram := ram, reservation_valid := false }
    | .oob ram => .stop .memError { m with ram := ram }
  else CPU.trap m 2 inst true

/-- The sign-extended 13-bit B-type immediate. -/
def immB (inst : Nat) : Int :=
  let raw := (((inst >>> 7) &&& 0x1) <<< 11) ||| (((inst >>> 8) &&& 0xF) <<< 1) |||
             (((inst >>> 25) &&& 0x3F) <<< 5) ||| ((inst >>> 31) <<< 12)
  if raw ≥ 0x1000 then (raw : Int) - 0x2000 else (raw : Int)

/-- cpu.py exec_branches. -/
def exec_branches (m : CPU) (inst rd funct3 rs1 rs2 funct7 : Nat) : Res :=
  if (funct3 = 0x0 ∧ m.registers rs1 = m.registers rs2) ∨
     (funct3 = 0x1 ∧ m.registers rs1 ≠ m.registers rs2) ∨
     (funct3 = 0x4 ∧ signed32 (m.registers rs1) < signed32 (m.registers rs2)) ∨
     (funct3 = 0x5 ∧ signed32 (m.registers rs1) ≥ signed32 (m.registers rs2)) ∨
     (funct3 = 0x6 ∧ (m.registers rs1 &&& 0xFFFFFFFF) < (m.registers rs2 &&& 0xFFFFFFFF)) ∨
     (funct3 = 0x7 ∧ (m.registers rs1 &&& 0xFFFFFFFF) ≥ (m.registers rs2 &&& 0xFFFFFFFF)) then
    let addr_target := imask ((m.pc : Int) + immB inst) 32
    if addr_target &&& m.alignment_mask ≠ 0 then CPU.trap m 0 addr_target true
    else .ok { m with next_pc := addr_target }
  else if funct3 = 0x2 ∨ funct3 = 0x3 then CPU.trap m 2 inst true
  else .ok m

/-- cpu.py exec_LUI. -/
def exec_LUI (m : CPU) (inst rd funct3 rs1 rs2 funct7 : Nat) : Res :=
  .ok (setReg m rd (((inst >>> 12) <<< 12) &&& 0xFFFFFFFF))

/-- cpu.py exec_AUIPC. -/
def exec_AUIPC (m : CPU) (inst rd funct3 rs1 rs2 funct7 : Nat) : Res :=
  .ok (setReg m rd ((m.pc + ((inst >>> 12) <<< 12)) &&& 0xFFFFFFFF))

/-- The sign-extended 21-bit J-type immediate. -/
def immJ (inst : Nat) : Int :=
  let raw := (((inst >>> 21) &&& 0x3FF) <<< 1) ||| (((inst >>> 20) &&& 0x1) <<< 11) |||
             (((inst >>> 12) &&& 0xFF) <<< 12) ||| ((inst >>> 31) <<< 20)
  if raw ≥ 0x100000 then (raw : Int) - 0x200000 else (raw : Int)

/-- cpu.py exec_JAL. -/
def exec_JAL (m : CPU) (inst rd funct3 rs1 rs2 funct7 : Nat) : Res :=
  let addr_target := imask ((m.pc : Int) + immJ inst) 32
  if addr_target &&& m.alignment_mask ≠ 0 then CPU.trap m 0 addr_target true
  else
    let m := if rd ≠ 0 then setReg m rd ((m.pc + m.inst_size) &&& 0xFFFFFFFF) else m
    .ok { m with next_pc := addr_target }

/-- cpu.py exec_JALR (clears bit 0 of the target before the alignment
check: Python (...) & 0xFFFFFFFE = mod 2^32 with bit 0 cleared). -/
def exec_JALR (m : CPU) (inst rd funct3 rs1 rs2 funct7 : Nat) : Res :=
  let addr_target := ((imask ((m.registers rs1 : Int) + immI inst) 32) >>> 1) <<< 1
  if addr_target &&& m.alignment_mask ≠ 0 then CPU.trap m 0 addr_target true
  else
    let m := if rd ≠ 0 then setReg m rd ((m.pc + m.inst_size) &&& 0xFFFFFFFF) else m
    .ok { m with next_pc := addr_target }

/-- cpu.py exec_SYSTEM: ECALL, MRET, EBREAK, the CSR operations, and WFI.
The ecall callback (cpu.handle_ecall) is modelled as absent, matching a
bare CPU as constructed; ECALL with no trap handler then raises
MachineError.  Note that in the source the read-only-CSR check calls
cpu.trap and then falls through: when a trap handler is installed,
execution continues into the write logic below it. -/
def exec_SYSTEM (m : CPU) (inst rd funct3 rs1 rs2 funct7 : Nat) : Res :=
  if inst = 0x00000073 then       -- ECALL
    if m.csrs 0x305 ≠ 0 then CPU.trap m 11 0 true
    else .stop .machineError m
  else if inst = 0x30200073 then  -- MRET
    let mepc := m.csrs 0x341
    if mepc &&& m.alignment_mask ≠ 0 then CPU.trap m 0 mepc true
    else
      let m := { m with next_pc := mepc }
      let mstatus := m.csrs 0x300
      let mpie := (mstatus >>> 7) &&& 1
      let mstatus := (clearBits mstatus 8) ||| (mpie <<< 3)  -- MIE <- MPIE
      let mstatus := mstatus ||| (1 <<< 7)                   -- MPIE = 1
      .ok (setCsr m 0x300 mstatus)
  else if inst = 0x00100073 then  -- EBREAK
    if 0xFFFF0000 ≤ m.registers 17 then .ok m  -- a7-based logging hooks: diagnostic only
    else if m.csrs 0x305 = 0 then
      .stop .terminated (CPU.bypassed_trap_return m 3 0)
    else CPU.trap m 3 0 true
  else if funct3 = 0b001 ∨ funct3 = 0b010 ∨ funct3 = 0b011 ∨
          funct3 = 0b101 ∨ funct3 = 0b110 ∨ funct3 = 0b111 then  -- CSR ops
    let csr := (inst >>> 20) &&& 0xFFF
    let old := m.csrs csr
    let rs1_val := csrOperand m funct3 rs1
    -- read-only CSR check; the source does not return after this trap,
    -- so on the non-raising path execution continues below
    let tr : Res :=
      if csrRO csr ∧ (funct3 = 0b001 ∨ funct3 = 0b101 ∨ rs1_val ≠ 0) then
        CPU.trap m 2 inst true
      else .ok m
    match tr with
    | .stop k m => .stop k m
    | .ok m =>
      let m :=
        if funct3 = 0b001 ∨ funct3 = 0b101 then  -- CSRRW / CSRRWI
          let m :=
            if csr = 0x305 then setCsr m csr (clearLow2 rs1_val)
            else if csrNoWrite csr then m
            else setCsr m csr rs1_val
          -- atomic update of mtime
          let m :=
            if csr = 0x7C0 ∨ csr = 0x7C1 then
              let m := { m with
                mtime_lo_updated := m.mtime_lo_updated || decide (csr = 0x7C0),
                mtime_hi_updated := m.mtime_hi_updated || decide (csr = 0x7C1) }
              if m.mtime_lo_updated && m.mtime_hi_updated then
                let m := { m with
                  mtime := (m.csrs 0x7C1 <<< 32) ||| m.csrs 0x7C0,
                  mtime_lo_updated := false, mtime_hi_updated := false }
                { m with mtip := decide (m.mtime ≥ m.mtimecmp) }
              else m
            else m
          -- atomic update of mtimecmp
          let m :=
            if csr = 0x7C2 ∨ csr = 0x7C3 then
              let m := { m with
                mtimecmp_lo_updated := m.mtimecmp_lo_updated || decide (csr = 0x7C2),
                mtimecmp_hi_updated := m.mtimecmp_hi_updated || decide (csr = 0x7C3) }
              if m.mtimecmp_lo_updated && m.mtimecmp_hi_updated then
                let m := { m with
                  mtimecmp := (m.csrs 0x7C3 <<< 32) ||| m.csrs 0x7C2,
                  mtimecmp_lo_updated := false, mtimecmp_hi_updated := false }
                { m with
                  mtime_countdown := (m.mtimecmp : Int) - (m.mtime : Int),
                  mtip := decide (m.mtime ≥ m.mtimecmp) }
              else m
            else m
          m
        else if funct3 = 0b010 ∨ funct3 = 0b110 then  -- CSRRS / CSRRSI
          if rs1_val ≠ 0 ∧ ¬ csrNoWrite csr then setCsr m csr (old ||| rs1_val) else m
        else if funct3 = 0b011 ∨ funct3 = 0b111 then  -- CSRRC / CSRRCI
          -- Python old & ~rs1_val on non-negative ints: keep the bits of
          -- old that are not set in rs1_val
          if rs1_val ≠ 0 ∧ ¬ csrNoWrite csr then
            setCsr m csr (Nat.bitwise (fun x y => x && !y) old rs1_val)
          else m
        else m
      -- MPP field of mstatus forced to 0b11
      let m := if csr = 0x300 then setCsr m 0x300 (m.csrs 0x300 ||| 0x00001800) else m
      if rd ≠ 0 then
        let old :=
          if csr = 0x7C0 then m.mtime &&& 0xFFFFFFFF
          else if csr = 0x7C1 then (m.mtime >>> 32) &&& 0xFFFFFFFF
          else if csr = 0x7C2 then m.mtimecmp &&& 0xFFFFFFFF
          else if csr = 0x7C3 then (m.mtimecmp >>> 32) &&& 0xFFFFFFFF
          else old
        .ok (setReg m rd old)
      else .ok m
  else if inst = 0x10500073 then .ok m  -- WFI: no-operation
  else CPU.trap m 2 inst true

/-- cpu.py exec_MISCMEM: FENCE and FENCE.I are no-operations. -/
def exec_MISCMEM (m : CPU) (inst rd funct3 rs1 rs2 funct7 : Nat) : Res :=
  if funct3 = 0b000 then .ok m
  else if funct3 = 0b001 then .ok m
  else CPU.trap m 2 inst true

/-- cpu.py exec_AMO: A extension (LR.W / SC.W / AMO*.W), word width only. -/
def exec_AMO (m : CPU) (inst rd funct3 rs1 rs2 funct7 : Nat) : Res :=
  if funct3 ≠ 0x2 then CPU.trap m 2 inst true
  else
    let funct5 := (inst >>> 27) &&& 0x1F
    let addr := m.registers rs1 &&& 0xFFFFFFFF
    if addr &&& 0x3 ≠ 0 then CPU.trap m 6 addr true
    else if funct5 = 0b00010 then      -- LR.W
      match m.ram.load_word addr with
      | some val =>
        .ok { setReg m rd val with reservation_valid := true, reservation_addr := addr }
      | none => .stop .memError m
    else if funct5 = 0b00011 then      -- SC.W
      if m.reservation_valid && decide (m.reservation_addr = addr) then
        match m.ram.store_word addr (m.registers rs2 &&& 0xFFFFFFFF) with
        | .ok ram =>
          .ok { setReg { m with ram := ram } rd 0 with reservation_valid := false }
        | .oob ram => .stop .memError { m with ram := ram }
      else
        .ok (setReg m rd 1)            -- failure: the reservation is left as is
    else if funct5 = 0b00001 then      -- AMOSWAP.W
      match m.ram.load_word addr with
      | some old_val =>
        match m.ram.store_word addr (m.registers rs2 &&& 0xFFFFFFFF) with
        | .ok ram =>
          .ok { setReg { m with ram := ram } rd old_val with reservation_valid := false }
        | .oob ram => .stop .memError { m with ram := ram }
      | none => .stop .memError m
    else if funct5 = 0b00000 then      -- AMOADD.W
      match m.ram.load_word addr with
      | some old_val =>
        match m.ram.store_word addr ((old_val + m.registers rs2) &&& 0xFFFFFFFF) with
        | .ok ram =>
          .ok { setReg { m with ram := ram } rd old_val with reservation_valid := false }
        | .oob ram => .stop .memError { m with ram := ram }
      | none => .stop .memError m
    else if funct5 = 0b00100 then      -- AMOXOR.W
      match m.ram.load_word addr with
      | some old_val =>
        match m.ram.store_word addr ((old_val ^^^ m.registers rs2) &&& 0xFFFFFFFF) with
        | .ok ram =>
          .ok { setReg { m with ram := ram } rd old_val with reservation_valid := false }
        | .oob ram => .stop .memError { m with ram := ram }
      | none => .stop .memError m
    else if funct5 = 0b01100 then      -- AMOAND.W
      match m.ram.load_word addr with
      | some old_val =>
        match m.ram.store_word addr ((old_val &&& m.registers rs2) &&& 0xFFFFFFFF) with
        | .ok ram =>
          .ok { setReg { m with ram := ram } rd old_val with reservation_valid := false }
        | .oob ram => .stop .memError { m with ram := ram }
      | none => .stop .memError m
    else if funct5 = 0b01000 then      -- AMOOR.W
      match m.ram.load_word addr with
      | some old_val =>
        match m.ram.store_word addr ((old_val ||| m.registers rs2) &&& 0xFFFFFFFF) with
        | .ok ram =>
          .ok { setReg { m with ram := ram } rd old_val with reservation_valid := false }
        | .oob ram => .stop .memError { m with ram := ram }
      | none => .stop .memError m
    else if funct5 = 0b10000 then      -- AMOMIN.W (signed)
      match m.ram.load_word addr with
      | some old_val =>
        match m.ram.store_word addr
            (imask (min (signed32 old_val) (signed32 (m.registers rs2))) 32) with
        | .ok ram =>
          .ok { setReg { m with ram := ram } rd old_val with reservation_valid := false }
        | .oob ram => .stop .memError { m with ram := ram }
      | none => .stop .memError m
    else if funct5 = 0b10100 then      -- AMOMAX.W (signed)
      match m.ram.load_word addr with
      | some old_val =>
        match m.ram.store_word addr
            (imask (max (signed32 old_val) (signed32 (m.registers rs2))) 32) with
        | .ok ram =>
          .ok { setReg { m with ram := ram } rd old_val with reservation_valid := false }
        | .oob ram => .stop .memError { m with ram := ram }
      | none => .stop .memError m
    else if funct5 = 0b11000 then      -- AMOMINU.W (unsigned)
      match m.ram.load_word addr with
      | some old_val0 =>
        let old_val := old_val0 &&& 0xFFFFFFFF
        match m.ram.store_word addr (min old_val (m.registers rs2 &&& 0xFFFFFFFF)) with
        | .ok ram =>
          .ok { setReg { m with ram := ram } rd old_val with reservation_valid := false }
        | .oob ram => .stop .memError { m with ram := ram }
      | none => .stop .memError m
    else if funct5 = 0b11100 then      -- AMOMAXU.W (unsigned)
      match m.ram.load_word addr with
      | some old_val0 =>
        let old_val := old_val0 &&& 0xFFFFFFFF
        match m.ram.store_word addr (max old_val (m.registers rs2 &&& 0xFFFFFFFF)) with
        | .ok ram =>
          .ok { setReg { m with ram := ram } rd old_val with reservation_valid := false }
        | .oob ram => .stop .memError { m with ram := ram }
      | none => .stop .memError m
    else CPU.trap m 2 inst true

/-- cpu.py CPU.execute_32: decode the fields, set next_pc and inst_size,
dispatch on the opcode, and force x0 back to zero afterwards (skipped if
the handler raised, mirroring the Python exception propagation). -/
def CPU.execute_32 (m : CPU) (inst : Nat) : Res :=
  let opcode := inst &&& 0x7F
  let rd := (inst >>> 7) &&& 0x1F
  let funct3 := (inst >>> 12) &&& 0x7
  let rs1 := (inst >>> 15) &&& 0x1F
  let rs2 := (inst >>> 20) &&& 0x1F
  let funct7 := (inst >>> 25) &&& 0x7F
  let m := { m with next_pc := (m.pc + 4) &&& 0xFFFFFFFF, inst_size := 4 }
  let r :=
    if opcode = 0x33 then exec_Rtype m inst rd funct3 rs1 rs2 funct7
    else if opcode = 0x13 then exec_Itype m inst rd funct3 rs1 rs2 funct7
    else if opcode = 0x03 then exec_loads m inst rd funct3 rs1 rs2 funct7
    else if opcode = 0x23 then exec_stores m inst rd funct3 rs1 rs2 funct7
    else if opcode = 0x63 then exec_branches m inst rd funct3 rs1 rs2 funct7
    else if opcode = 0x37 then exec_LUI m inst rd funct3 rs1 rs2 funct7
    else if opcode = 0x17 then exec_AUIPC m inst rd funct3 rs1 rs2 funct7
    else if opcode = 0x6F then exec_JAL m inst rd funct3 rs1 rs2 funct7
    else if opcode = 0x67 then exec_JALR m inst rd funct3 rs1 rs2 funct7
    else if opcode = 0x73 then exec_SYSTEM m inst rd funct3 rs1 rs2 funct7
    else if opcode = 0x0F then exec_MISCMEM m inst rd funct3 rs1 rs2 funct7
    else if opcode = 0x2F then exec_AMO m inst rd funct3 rs1 rs2 funct7
    else CPU.trap m 2 inst true
  match r with
  | .ok m => .ok (setReg m 0 0)
  | .stop k m => .stop k m

/-- cpu.py CPU.timer_update: increment mtime, then derive the MTIP
assertion from the saved pre-increment mtime (the source saves
self.mtime into a local before incrementing and compares that local
against mtimecmp); update mip.MTIP and the cached flag on an edge, and
deliver a pending timer or external interrupt if mstatus.MIE is set. -/
def CPU.timer_update (m : CPU) : Res :=
  let mtime := m.mtime
  let m := { m with mtime := mtime + 1 }
  let mtip_asserted := decide (mtime ≥ m.mtimecmp)
  let m :=
    if mtip_asserted ≠ m.mtip then
      let m :=
        if mtip_asserted then setCsr m 0x344 (m.csrs 0x344 ||| (1 <<< 7))
        else setCsr m 0x344 (clearBits (m.csrs 0x344) (1 <<< 7))
      { m with mtip := mtip_asserted }
    else m
  if m.csrs 0x300 &&& (1 <<< 3) = 0 then .ok m
  else if m.csrs 0x344 &&& (1 <<< 7) ≠ 0 ∧ m.csrs 0x304 &&& (1 <<< 7) ≠ 0 then
    CPU.trap m 0x80000007 0 false
  else if m.csrs 0x344 &&& (1 <<< 11) ≠ 0 ∧ m.csrs 0x304 &&& (1 <<< 11) ≠ 0 then
    CPU.trap m 0x8000000B 0 false
  else .ok m

/-- cpu.py CPU.__init__ CSR reset values (rvc_enabled = False, so misa
has no C bit). -/
def initCsrs : Nat → Nat := fun c =>
  if c = 0x301 then 0x40001101       -- misa: RV32IMA
  else if c = 0x300 then 0x00001800  -- mstatus: MPP = 0b11
  else if c = 0x7C2 then 0xFFFFFFFF  -- mtimecmp_lo shadow
  else if c = 0x7C3 then 0xFFFFFFFF  -- mtimecmp_hi shadow
  else if c = 0xF12 then 0x00000001  -- marchid (read-only)
  else if c = 0xF13 then 0x20250400  -- mimpid (read-only)
  else 0

/-- cpu.py CPU.__init__ with init_regs = None and rvc_enabled = False
(alignment mask 0x3), owning the given RAM. -/
def CPU.init (ram : RAM) : CPU :=
  { registers := fun _ => 0
    pc := 0
    next_pc := 0
    inst_size := 4
    alignment_mask := 0x3
    reservation_valid := false
    reservation_addr := 0
    csrs := initCsrs
    mtime := 0
    mtimecmp := 0xFFFFFFFFFFFFFFFF
    mtime_lo_updated := false
    mtime_hi_updated := false
    mtimecmp_lo_updated := false
    mtimecmp_hi_updated := false
    mtip := false
    mtime_countdown := 0
    ram := ram }

/-- Modelled from the spec: the Machine.run step loop. The Machine class
present in the sources is an older variant without the run loop, so the
loop follows section 4.6 of the specification: fetch a 16-bit parcel at
pc, fetch the upper parcel only when the low two bits are 11, execute,
tick the timer when enabled, then commit pc := next_pc. The CPU here has
the RVC extension disabled (the default), whose execute dispatches every
fetched value to execute_32, so a parcel with low bits other than 11 is
handed to execute_32 unchanged. A raised exception propagates without
committing pc. -/
def Machine.step (timer : Bool) (m : CPU) : Res :=
  match m.ram.load_half m.pc false with
  | none => .stop .memError m
  | some lowI =>
    let low := lowI.toNat
    let r :=
      if low &&& 0x3 = 0x3 then
        match m.ram.load_half (m.pc + 2) false with
        | none => .stop .memError m
        | some highI => CPU.execute_32 m ((highI.toNat <<< 16) ||| low)
      else CPU.execute_32 m low
    match r with
    | .stop k m => .stop k m
    | .ok m =>
      match (if timer then CPU.timer_update m else .ok m) with
      | .stop k m => .stop k m
      | .ok m => .ok { m with pc := m.next_pc }

/-- Modelled from the spec: run the step loop for up to fuel steps,
stopping early when an exception ends execution. -/
def Machine.stepN (timer : Bool) : Nat → CPU → Res
  | 0, m => .ok m
  | n+1, m =>
    match Machine.step timer m with
    | .ok m => Machine.stepN timer n m
    | r => r

/-- Little-endian byte image of a 32-bit word (how store_binary lays a
word into the bytearray). -/
def wordBytes (w : Nat) : List Nat :=
  [w &&& 0xFF, (w >>> 8) &&& 0xFF, (w >>> 16) &&& 0xFF, (w >>> 24) &&& 0xFF]

/-- A RAM holding the given program words at address 0 (with the default
4 bytes of padding), as load_flatbinary would lay them out. -/
def ramFromWords (ws : List Nat) : RAM :=
  let bytes := (ws.map wordBytes).flatten
  ⟨bytes ++ List.replicate 4 0, bytes.length⟩

/-- The literal 7-instruction summation program of the specification
(addi x5,x0,0; addi x6,x0,1; addi x7,x0,100; add x5,x5,x6; addi x6,x6,1;
bge x7,x6,-8; ebreak), loaded at address 0. -/
def sumProg : List Nat :=
  [0x00000293, 0x00100313, 0x06400393, 0x006282B3, 0x00130313, 0xFE63DCE3, 0x00100073]

/-- Running the summation program from reset until execution stops
(mtvec = 0, so the final EBREAK raises ExecutionTerminated). -/
def c8Res : Res := Machine.stepN false 400 (CPU.init (ramFromWords sumProg))

/-- A CPU with a trap handler installed (mtvec = 0x100) and x2 = 5,
about to write a read-only CSR. -/
def c1State : CPU :=
  { CPU.init (mkRAM 16) with
    registers := fun i => if i = 2 then 5 else 0,
    csrs := fun c => if c = 0x305 then 0x100 else initCsrs c }

/-- Executing CSRRW x1, marchid, x2 (0xF12110F3): an effective write to
the read-only CSR 0xF12, whose reset value is 1. -/
def c1Res : Res := CPU.execute_32 c1State 0xF12110F3

/-- A CPU holding a valid LR/SC reservation on address 0, with x1 = 4
(the SC.W target address) and x2 = 77 (the value to store). -/
def c2State : CPU :=
  { CPU.init (mkRAM 16) with
    registers := fun i => if i = 1 then 4 else if i = 2 then 77 else 0,
    reservation_valid := true, reservation_addr := 0,
    csrs := fun c => if c = 0x305 then 0x100 else initCsrs c }

/-- Executing SC.W x5, x2, (x1) (0x1820A2AF): the reservation is valid
but for address 0, not 4, so the store-conditional fails. -/
def c2Res : Res := CPU.execute_32 c2State 0x1820A2AF

/-- Executing CSRRSI mtvec, 1 (0x3050E073) on a reset CPU (mtvec = 0). -/
def c3Res : Res := CPU.execute_32 (CPU.init (mkRAM 16)) 0x3050E073

/-- A CPU with mtime = 5, interrupts enabled (mstatus.MIE, mie.MTIE),
a trap handler at 0x100, and x1 = 3 ready to be written to the
mtimecmp shadow CSRs. -/
def c4State : CPU :=
  { CPU.init (mkRAM 16) with
    registers := fun i => if i = 1 then 3 else 0,
    csrs := fun c => if c = 0x300 then 0x1808 else if c = 0x304 then 0x80
                     else if c = 0x305 then 0x100 else initCsrs c,
    mtime := 5 }

/-- CSRRW x0, mtimecmp_lo, x1: writes the low half (3). -/
def c4A : Res := CPU.execute_32 c4State 0x7C209073

/-- CSRRW x0, mtimecmp_hi, x2: writes the high half (0), committing the
64-bit mtimecmp = 3 while mtime = 5. -/
def c4B : Res := CPU.execute_32 (resMach c4A) 0x7C311073

/-- One timer tick after the commit. -/
def c4C : Res := CPU.timer_update (resMach c4B)

/-- The timer-interrupt scenario of the specification: mstatus.MIE = 1,
mie.MTIE = 1, mtvec = 0x100, mtimecmp = mtime + 3 = 3, and a RAM of
addi x0,x0,0 instructions; the timer ticks once per retired
instruction. -/
def c5State : CPU :=
  { CPU.init (ramFromWords [0x13, 0x13, 0x13, 0x13, 0x13]) with
    csrs := fun c => if c = 0x300 then 0x1808 else if c = 0x304 then 0x80
                     else if c = 0x305 then 0x100 else initCsrs c,
    mtimecmp := 3 }

/-- A reset CPU with x1 = 7, used to drive the timer shadow CSRs. -/
def c6State : CPU :=
  { CPU.init (mkRAM 16) with registers := fun i => if i = 1 then 7 else 0 }

/-- CSRRW x0, mtime_hi (0x7C1), x1: writes the high shadow half (7) and
marks the hi dirty flag. -/
def c6A : Res := CPU.execute_32 c6State 0x7C109073

/-- CSRRSI mtime_lo (0x7C0), 1: an effective CSR write (non-zero
operand) to the low shadow half. Both halves have now been written
since the last commit, in hi-then-lo order. -/
def c6B : Res := CPU.execute_32 (resMach c6A) 0x7C00E073

/-! Projection helper lemmas used by the symbolic proofs. -/

@[simp] theorem resMach_ok (m : CPU) : resMach (.ok m) = m := rfl

@[simp] theorem resMach_stop (k : StopKind) (m : CPU) : resMach (.stop k m) = m := rfl

@[simp] theorem resMach_ite (c : Prop) [Decidable c] (a b : Res) :
    resMach (if c then a else b) = if c then resMach a else resMach b := by
  split <;> rfl

@[simp] theorem csrs_ite (c : Prop) [Decidable c] (a b : CPU) (j : Nat) :
    (if c then a else b).csrs j = if c then a.csrs j else b.csrs j := by
  split <;> rfl

@[simp] theorem registers_ite (c : Prop) [Decidable c] (a b : CPU) (j : Nat) :
    (if c then a else b).registers j = if c then a.registers j else b.registers j := by
  split <;> rfl

@[simp] theorem mtime_ite (c : Prop) [Decidable c] (a b : CPU) :
    (if c then a else b).mtime = if c then a.mtime else b.mtime := by
  split <;> rfl

@[simp] theorem mtimecmp_ite (c : Prop) [Decidable c] (a b : CPU) :
    (if c then a else b).mtimecmp = if c then a.mtimecmp else b.mtimecmp := by
  split <;> rfl

@[simp] theorem mtime_lo_updated_ite (c : Prop) [Decidable c] (a b : CPU) :
    (if c then a else b).mtime_lo_updated = if c then a.mtime_lo_updated else b.mtime_lo_updated := by
  split <;> rfl

@[simp] theorem mtime_hi_updated_ite (c : Prop) [Decidable c] (a b : CPU) :
    (if c then a else b).mtime_hi_updated = if c then a.mtime_hi_updated else b.mtime_hi_updated := by
  split <;> rfl

@[simp] theorem mtimecmp_lo_updated_ite (c : Prop) [Decidable c] (a b : CPU) :
    (if c then a else b).mtimecmp_lo_updated = if c then a.mtimecmp_lo_updated else b.mtimecmp_lo_updated := by
  split <;> rfl

@[simp] theorem mtimecmp_hi_updated_ite (c : Prop) [Decidable c] (a b : CPU) :
    (if c then a else b).mtimecmp_hi_updated = if c then a.mtimecmp_hi_updated else b.mtimecmp_hi_updated := by
  split <;> rfl

@[simp] theorem reservation_valid_ite (c : Prop) [Decidable c] (a b : CPU) :
    (if c then a else b).reservation_valid = if c then a.reservation_valid else b.reservation_valid := by
  split <;> rfl

@[simp] theorem setCsr_csrs (m : CPU) (c v j : Nat) :
    (setCsr m c v).csrs j = if j = c then v else m.csrs j := rfl

@[simp] theorem setReg_registers (m : CPU) (rd v j : Nat) :
    (setReg m rd v).registers j = if j = rd then v else m.registers j := rfl

@[simp] theorem setCsr_registers (m : CPU) (c v : Nat) :
    (setCsr m c v).registers = m.registers := rfl

@[simp] theorem setReg_csrs (m : CPU) (rd v : Nat) :
    (setReg m rd v).csrs = m.csrs := rfl

@[simp] theorem setCsr_mtime (m : CPU) (c v : Nat) : (setCsr m c v).mtime = m.mtime := rfl

@[simp] theorem setReg_mtime (m : CPU) (rd v : Nat) : (setReg m rd v).mtime = m.mtime := rfl

@[simp] theorem setCsr_mtimecmp (m : CPU) (c v : Nat) : (setCsr m c v).mtimecmp = m.mtimecmp := rfl

@[simp] theorem setReg_mtimecmp (m : CPU) (rd v : Nat) : (setReg m rd v).mtimecmp = m.mtimecmp := rfl

@[simp] theorem setCsr_mtime_lo_updated (m : CPU) (c v : Nat) :
    (setCsr m c v).mtime_lo_updated = m.mtime_lo_updated := rfl

@[simp] theorem setCsr_mtime_hi_updated (m : CPU) (c v : Nat) :
    (setCsr m c v).mtime_hi_updated = m.mtime_hi_updated := rfl

@[simp] theorem setCsr_mtimecmp_lo_updated (m : CPU) (c v : Nat) :
    (setCsr m c v).mtimecmp_lo_updated = m.mtimecmp_lo_updated := rfl

@[simp] theorem setCsr_mtimecmp_hi_updated (m : CPU) (c v : Nat) :
    (setCsr m c v).mtimecmp_hi_updated = m.mtimecmp_hi_updated := rfl

@[simp] theorem setReg_mtime_lo_updated (m : CPU) (rd v : Nat) :
    (setReg m rd v).mtime_lo_updated = m.mtime_lo_updated := rfl

@[simp] theorem setReg_mtime_hi_updated (m : CPU) (rd v : Nat) :
    (setReg m rd v).mtime_hi_updated = m.mtime_hi_updated := rfl

@[simp] theorem setReg_mtimecmp_lo_updated (m : CPU) (rd v : Nat) :
    (setReg m rd v).mtimecmp_lo_updated = m.mtimecmp_lo_updated := rfl

@[simp] theorem setReg_mtimecmp_hi_updated (m : CPU) (rd v : Nat) :
    (setReg m rd v).mtimecmp_hi_updated = m.mtimecmp_hi_updated := rfl

set_option maxRecDepth 100000 in
/-- Claim C8: executing the literal 7-instruction summation program loaded
at address 0, stepping until execution stops (the EBREAK at pc = 0x18
raises ExecutionTerminated because no trap handler is installed), leaves
x5 = 5050 with the stop occurring at pc = 0x18. -/
theorem c8_sum_program_runs_to_5050 :
    isTerminated c8Res = true ∧ (resMach c8Res).pc = 0x18 ∧
    (resMach c8Res).registers 5 = 5050 := by
  decide

set_option maxRecDepth 10000 in
/-- Claim C1 (code bug): an effective CSRRW to the read-only CSR marchid
(0xF12) with mtvec = 0x100 does trap (mcause = 2, control transferred to
mtvec), but because the source does not return after calling cpu.trap,
the instruction still completes: the read-only CSR is overwritten with
the operand (5 instead of its prior value 1) and rd (x1) receives the old
CSR value 1 even though it held 0 before. This refutes the parts of the
claim stating that the CSR and the other general-purpose registers are
unchanged. -/
theorem c1_ro_csr_write_traps_but_still_writes :
    resCsr c1Res 0x342 = 2 ∧ (resMach c1Res).next_pc = 0x100 ∧
    resCsr c1Res 0x341 = c1State.pc ∧
    c1State.csrs 0xF12 = 1 ∧ resCsr c1Res 0xF12 = 5 ∧
    c1State.registers 1 = 0 ∧ (resMach c1Res).registers 1 = 1 := by
  decide

set_option maxRecDepth 10000 in
/-- Claim C2 (code bug): an executed SC.W whose reservation is valid but
for a different address (reservation_addr = 0, store address = 4) fails
with rd = 1, yet leaves reservation_valid = true: the source clears the
reservation only on the success path, refuting "the reservation is
invalid immediately after every executed SC.W". -/
theorem c2_failed_sc_keeps_reservation :
    (resMach c2Res).registers 5 = 1 ∧
    (resMach c2Res).reservation_valid = true := by
  decide

set_option maxRecDepth 10000 in
/-- Claim C4 (code bug): committing mtimecmp = 3 through the shadow CSRs
while mtime = 5 updates only the cached mtip flag; bit 7 of the mip CSR
stays 0 even though mtime >= mtimecmp, and the following timer tick sees
no edge (cached flag already true), so mip.MTIP remains 0 and no timer
interrupt is delivered despite mstatus.MIE = 1 and mie.MTIE = 1. -/
theorem c4_mip_not_updated_on_csr_commit :
    (resMach c4B).mtimecmp = 3 ∧ (resMach c4B).mtime = 5 ∧
    (resMach c4B).mtip = true ∧ resCsr c4B 0x344 &&& 0x80 = 0 ∧
    resCsr c4C 0x344 &&& 0x80 = 0 ∧ resCsr c4C 0x342 = 0 ∧
    resCsr c4C 0x300 &&& 8 = 8 := by
  decide

set_option maxRecDepth 20000 in
/-- Claim C5 counterexample: in the specified configuration
(mstatus.MIE = 1, mie.MTIE = 1, mtvec = 0x100, mtimecmp = mtime + 3),
after three ticks (one per retired instruction) no trap has fired:
mcause is still 0 (not 0x80000007) and mstatus.MIE is still set,
because timer_update compares the pre-increment mtime against
mtimecmp. -/
theorem c5_no_trap_after_three_ticks :
    resCsr (Machine.stepN true 3 c5State) 0x342 ≠ 0x80000007 ∧
    resCsr (Machine.stepN true 3 c5State) 0x342 = 0 ∧
    resCsr (Machine.stepN true 3 c5State) 0x300 &&& 8 = 8 ∧
    (resMach (Machine.stepN true 3 c5State)).mtime = 3 := by
  decide

set_option maxRecDepth 20000 in
/-- Claim C5 as amended: each tick increments mtime by 1 but asserts MTIP
from the pre-increment value, so the trap fires on the fourth tick: then
mcause = 0x80000007, mepc = 0x10 (the PC of the instruction after the one
that retired on the triggering tick, which sat at 0xC), mstatus.MIE = 0,
mstatus.MPIE = 1, and execution resumes at mtvec = 0x100. -/
theorem c5_amended_trap_on_fourth_tick :
    resCsr (Machine.stepN true 4 c5State) 0x342 = 0x80000007 ∧
    resCsr (Machine.stepN true 4 c5State) 0x341 = 0x10 ∧
    resCsr (Machine.stepN true 4 c5State) 0x300 &&& 8 = 0 ∧
    resCsr (Machine.stepN true 4 c5State) 0x300 &&& 0x80 = 0x80 ∧
    (resMach (Machine.stepN true 4 c5State)).pc = 0x100 ∧
    (resMach (Machine.stepN true 4 c5State)).mtime = 4 := by
  decide

set_option maxRecDepth 10000 in
/-- Claim C3 counterexample: CSRRSI mtvec, 1 (an effective CSR write to
mtvec, funct3 = 0b110 with non-zero operand) stores 1 into mtvec: the
two low bits are not forced to 0, because the source masks only in the
CSRRW/CSRRWI branch. -/
theorem c3_csrrsi_mtvec_sets_low_bits :
    resCsr c3Res 0x305 = 1 ∧ resCsr c3Res 0x305 % 4 ≠ 0 := by
  decide

/-- Claim C3 as amended: after any CSR operation on mstatus (0x300) of
any of the six forms, the stored mstatus has MPP bits 12 and 11 forced
to 1 (so in particular after every effective write); but for mtvec
(0x305) the two low bits are guaranteed to be 0 only after CSRRW/CSRRWI
writes — the CSRRS/CSRRC forms store the unmasked result. -/
theorem c3_amended_mpp_forced_mtvec_only_csrrw :
    (∀ (m : CPU) (inst rd funct3 rs1 rs2 funct7 : Nat),
       (inst >>> 20) &&& 0xFFF = 0x300 →
       funct3 = 1 ∨ funct3 = 2 ∨ funct3 = 3 ∨ funct3 = 5 ∨ funct3 = 6 ∨ funct3 = 7 →
       Nat.testBit (resCsr (exec_SYSTEM m inst rd funct3 rs1 rs2 funct7) 0x300) 11 = true ∧
       Nat.testBit (resCsr (exec_SYSTEM m inst rd funct3 rs1 rs2 funct7) 0x300) 12 = true) ∧
    (∀ (m : CPU) (inst rd funct3 rs1 rs2 funct7 : Nat),
       (inst >>> 20) &&& 0xFFF = 0x305 →
       funct3 = 1 ∨ funct3 = 5 →
       resCsr (exec_SYSTEM m inst rd funct3 rs1 rs2 funct7) 0x305 % 4 = 0) := by
  have hb11 : Nat.testBit 0x1800 11 = true := by decide
  have hb12 : Nat.testBit 0x1800 12 = true := by decide
  constructor
  · intro m inst rd funct3 rs1 rs2 funct7 hcsr hf3
    have h73 : ¬ (inst = 0x00000073) := by
      intro h; rw [h] at hcsr; exact absurd hcsr (by decide)
    have h302 : ¬ (inst = 0x30200073) := by
      intro h; rw [h] at hcsr; exact absurd hcsr (by decide)
    have h100 : ¬ (inst = 0x00100073) := by
      intro h; rw [h] at hcsr; exact absurd hcsr (by decide)
    rcases hf3 with rfl | rfl | rfl | rfl | rfl | rfl <;>
      simp [exec_SYSTEM, hcsr, h73, h302, h100, resCsr, CPU.trap, setCsr, setReg,
            csrRO, csrNoWrite, csrOperand, Nat.testBit_or, hb11, hb12]
  · intro m inst rd funct3 rs1 rs2 funct7 hcsr hf3
    have h73 : ¬ (inst = 0x00000073) := by
      intro h; rw [h] at hcsr; exact absurd hcsr (by decide)
    have h302 : ¬ (inst = 0x30200073) := by
      intro h; rw [h] at hcsr; exact absurd hcsr (by decide)
    have h100 : ¬ (inst = 0x00100073) := by
      intro h; rw [h] at hcsr; exact absurd hcsr (by decide)
    rcases hf3 with rfl | rfl <;>
      simp [exec_SYSTEM, hcsr, h73, h302, h100, resCsr, CPU.trap, setCsr, setReg,
            csrRO, csrNoWrite, csrOperand, clearLow2, Nat.shiftLeft_eq, Nat.mul_mod_left]

/-- Witness for the amended claim C3 at a concrete input: CSRRW x0,
mstatus, x1 on a reset CPU forces MPP bit 11. -/
theorem c3_amended_witness :
    (((0x30009073 : Nat) >>> 20) &&& 0xFFF = 0x300) ∧
    Nat.testBit (resCsr (exec_SYSTEM (CPU.init (mkRAM 16)) 0x30009073 0 1 1 0 0) 0x300) 11 = true :=
  ⟨by decide,
   (c3_amended_mpp_forced_mtvec_only_csrrw.1 (CPU.init (mkRAM 16)) 0x30009073 0 1 1 0 0
     (by decide) (Or.inl rfl)).1⟩

set_option maxRecDepth 10000 in
/-- Claim C6 counterexample: the commit discipline does not hold for
every CSR write. After CSRRW x0, mtime_hi, x1 (hi shadow := 7) followed
by the effective CSRRSI mtime_lo, 1 (lo shadow := 1), both halves have
been written since the last commit, yet mtime is still 0 rather than
(7 <<< 32) ||| 1 and the hi dirty flag is still set: the dirty-flag and
commit logic runs only in the CSRRW/CSRRWI branch of exec_SYSTEM, so a
CSRRS/CSRRC write to a shadow half updates the CSR without marking a
flag or committing. -/
theorem c6_csrrsi_half_write_does_not_commit :
    resCsr c6B 0x7C1 = 7 ∧ resCsr c6B 0x7C0 = 1 ∧
    (resMach c6B).mtime = 0 ∧ (resMach c6B).mtime ≠ (7 <<< 32) ||| 1 ∧
    (resMach c6B).mtime_hi_updated = true ∧
    (resMach c6B).mtime_lo_updated = false := by
  decide

/-- Claim C6 as amended: the timer shadow CSR discipline, restricted to
CSRRW/CSRRWI writes (funct3 1 or 5) — the only forms that drive the
dirty-flag and commit logic; an effective CSRRS/CSRRC write updates the
shadow CSR but marks no flag and never commits. Starting from a state
in which no half is dirty: a CSRRW/CSRRWI write to one half alone
leaves the authoritative 64-bit counter unchanged and marks only that
half dirty; the CSRRW/CSRRWI write of the other half, in either order,
commits counter = (hi <<< 32) ||| lo (where hi and lo are the stored
shadow halves, equal to the written operands) and clears both dirty
flags. The four parts cover mtime lo-then-hi, mtime hi-then-lo,
mtimecmp lo-then-hi, and mtimecmp hi-then-lo. -/
theorem c6_timer_shadow_csr_commit_discipline :
    (∀ (m : CPU) (instLo instHi rdLo rdHi f3Lo f3Hi rs1Lo rs1Hi rs2x f7x : Nat),
       m.mtime_lo_updated = false → m.mtime_hi_updated = false →
       (instLo >>> 20) &&& 0xFFF = 0x7C0 → (instHi >>> 20) &&& 0xFFF = 0x7C1 →
       (f3Lo = 1 ∨ f3Lo = 5) → (f3Hi = 1 ∨ f3Hi = 5) →
       let m1 := resMach (exec_SYSTEM m instLo rdLo f3Lo rs1Lo rs2x f7x)
       let m2 := resMach (exec_SYSTEM m1 instHi rdHi f3Hi rs1Hi rs2x f7x)
       m1.mtime = m.mtime ∧ m1.mtime_lo_updated = true ∧ m1.mtime_hi_updated = false ∧
       m2.mtime = (m2.csrs 0x7C1 <<< 32) ||| m2.csrs 0x7C0 ∧
       m2.csrs 0x7C0 = csrOperand m f3Lo rs1Lo ∧
       m2.csrs 0x7C1 = csrOperand m1 f3Hi rs1Hi ∧
       m2.mtime_lo_updated = false ∧ m2.mtime_hi_updated = false) ∧
    (∀ (m : CPU) (instLo instHi rdLo rdHi f3Lo f3Hi rs1Lo rs1Hi rs2x f7x : Nat),
       m.mtime_lo_updated = false → m.mtime_hi_updated = false →
       (instLo >>> 20) &&& 0xFFF = 0x7C0 → (instHi >>> 20) &&& 0xFFF = 0x7C1 →
       (f3Lo = 1 ∨ f3Lo = 5) → (f3Hi = 1 ∨ f3Hi = 5) →
       let m1 := resMach (exec_SYSTEM m instHi rdHi f3Hi rs1Hi rs2x f7x)
       let m2 := resMach (exec_SYSTEM m1 instLo rdLo f3Lo rs1Lo rs2x f7x)
       m1.mtime = m.mtime ∧ m1.mtime_lo_updated = false ∧ m1.mtime_hi_updated = true ∧
       m2.mtime = (m2.csrs 0x7C1 <<< 32) ||| m2.csrs 0x7C0 ∧
       m2.csrs 0x7C1 = csrOperand m f3Hi rs1Hi ∧
       m2.csrs 0x7C0 = csrOperand m1 f3Lo rs1Lo ∧
       m2.mtime_lo_updated = false ∧ m2.mtime_hi_updated = false) ∧
    (∀ (m : CPU) (instLo instHi rdLo rdHi f3Lo f3Hi rs1Lo rs1Hi rs2x f7x : Nat),
       m.mtimecmp_lo_updated = false → m.mtimecmp_hi_updated = false →
       (instLo >>> 20) &&& 0xFFF = 0x7C2 → (instHi >>> 20) &&& 0xFFF = 0x7C3 →
       (f3Lo = 1 ∨ f3Lo = 5) → (f3Hi = 1 ∨ f3Hi = 5) →
       let m1 := resMach (exec_SYSTEM m instLo rdLo f3Lo rs1Lo rs2x f7x)
       let m2 := resMach (exec_SYSTEM m1 instHi rdHi f3Hi rs1Hi rs2x f7x)
       m1.mtimecmp = m.mtimecmp ∧ m1.mtimecmp_lo_updated = true ∧ m1.mtimecmp_hi_updated = false ∧
       m2.mtimecmp = (m2.csrs 0x7C3 <<< 32) ||| m2.csrs 0x7C2 ∧
       m2.csrs 0x7C2 = csrOperand m f3Lo rs1Lo ∧
       m2.csrs 0x7C3 = csrOperand m1 f3Hi rs1Hi ∧
       m2.mtimecmp_lo_updated = false ∧ m2.mtimecmp_hi_updated = false) ∧
    (∀ (m : CPU) (instLo instHi rdLo rdHi f3Lo f3Hi rs1Lo rs1Hi rs2x f7x : Nat),
       m.mtimecmp_lo_updated = false → m.mtimecmp_hi_updated = false →
       (instLo >>> 20) &&& 0xFFF = 0x7C2 → (instHi >>> 20) &&& 0xFFF = 0x7C3 →
       (f3Lo = 1 ∨ f3Lo = 5) → (f3Hi = 1 ∨ f3Hi = 5) →
       let m1 := resMach (exec_SYSTEM m instHi rdHi f3Hi rs1Hi rs2x f7x)
       let m2 := resMach (exec_SYSTEM m1 instLo rdLo f3Lo rs1Lo rs2x f7x)
       m1.mtimecmp = m.mtimecmp ∧ m1.mtimecmp_lo_updated = false ∧ m1.mtimecmp_hi_updated = true ∧
       m2.mtimecmp = (m2.csrs 0x7C3 <<< 32) ||| m2.csrs 0x7C2 ∧
       m2.csrs 0x7C3 = csrOperand m f3Hi rs1Hi ∧
       m2.csrs 0x7C2 = csrOperand m1 f3Lo rs1Lo ∧
       m2.mtimecmp_lo_updated = false ∧ m2.mtimecmp_hi_updated = false) := by
  refine ⟨?_, ?_, ?_, ?_⟩ <;>
  · intro m instLo instHi rdLo rdHi f3Lo f3Hi rs1Lo rs1Hi rs2x f7x hlo hhi hcL hcH hf3L hf3H
    have hL73 : ¬ (instLo = 0x00000073) := by
      intro h; rw [h] at hcL; exact absurd hcL (by decide)
    have hL302 : ¬ (instLo = 0x30200073) := by
      intro h; rw [h] at hcL; exact absurd hcL (by decide)
    have hL100 : ¬ (instLo = 0x00100073) := by
      intro h; rw [h] at hcL; exact absurd hcL (by decide)
    have hH73 : ¬ (instHi = 0x00000073) := by
      intro h; rw [h] at hcH; exact absurd hcH (by decide)
    have hH302 : ¬ (instHi = 0x30200073) := by
      intro h; rw [h] at hcH; exact absurd hcH (by decide)
    have hH100 : ¬ (instHi = 0x00100073) := by
      intro h; rw [h] at hcH; exact absurd hcH (by decide)
    rcases hf3L with rfl | rfl <;> rcases hf3H with rfl | rfl <;>
      simp [exec_SYSTEM, hcL, hcH, hL73, hL302, hL100, hH73, hH302, hH100,
            hlo, hhi, resCsr, CPU.trap, setCsr, setReg, csrRO, csrNoWrite, csrOperand]

/-- Witness for claim C6 at a concrete input: a lone CSRRW x0,
mtime_lo, x1 on a reset CPU leaves the 64-bit mtime unchanged. -/
theorem c6_timer_shadow_witness :
    (CPU.init (mkRAM 16)).mtime_lo_updated = false ∧
    ((0x7C009073 : Nat) >>> 20) &&& 0xFFF = 0x7C0 ∧
    (resMach (exec_SYSTEM (CPU.init (mkRAM 16)) 0x7C009073 0 1 1 0 0)).mtime =
      (CPU.init (mkRAM 16)).mtime :=
  ⟨rfl, by decide,
   (c6_timer_shadow_csr_commit_discipline.1 (CPU.init (mkRAM 16)) 0x7C009073 0x7C111073
     0 0 1 1 1 2 0 0 rfl rfl (by decide) (by decide) (Or.inl rfl) (Or.inl rfl)).1⟩

/-- Masking a value already below 2^32 with 0xFFFFFFFF is the identity. -/
theorem land32_of_lt {a : Nat} (h : a < 2 ^ 32) : a &&& 0xFFFFFFFF = a := by
  have e : (0xFFFFFFFF : Nat) = 2 ^ 32 - 1 := by decide
  rw [e]
  exact Nat.and_pow_two_sub_one_of_lt_two_pow h

/-- Claim C7: the division and remainder corner cases of exec_Rtype
(funct7 = 0x01), for every pair of 32-bit source register values:
DIV (funct3 4) writes 0xFFFFFFFF on divisor zero and 0x80000000 on the
INT_MIN / -1 overflow; REM (funct3 6) writes the dividend on divisor
zero and 0 on the overflow corner; DIVU (funct3 5) writes 0xFFFFFFFF
and REMU (funct3 7) writes the dividend on divisor zero; in all other
cases DIV and REM use truncating division toward zero (Int.tdiv). -/
theorem c7_division_corner_cases (m : CPU) (inst rd rs1 rs2 : Nat)
    (ha : m.registers rs1 < 2 ^ 32) (hb : m.registers rs2 < 2 ^ 32) :
    (m.registers rs2 = 0 →
      (resMach (exec_Rtype m inst rd 0x4 rs1 rs2 0x01)).registers rd = 0xFFFFFFFF) ∧
    (m.registers rs1 = 0x80000000 → m.registers rs2 = 0xFFFFFFFF →
      (resMach (exec_Rtype m inst rd 0x4 rs1 rs2 0x01)).registers rd = 0x80000000) ∧
    (m.registers rs2 = 0 →
      (resMach (exec_Rtype m inst rd 0x6 rs1 rs2 0x01)).registers rd = m.registers rs1) ∧
    (m.registers rs1 = 0x80000000 → m.registers rs2 = 0xFFFFFFFF →
      (resMach (exec_Rtype m inst rd 0x6 rs1 rs2 0x01)).registers rd = 0) ∧
    (m.registers rs2 = 0 →
      (resMach (exec_Rtype m inst rd 0x5 rs1 rs2 0x01)).registers rd = 0xFFFFFFFF) ∧
    (m.registers rs2 = 0 →
      (resMach (exec_Rtype m inst rd 0x7 rs1 rs2 0x01)).registers rd = m.registers rs1) ∧
    (m.registers rs2 ≠ 0 → ¬(m.registers rs1 = 0x80000000 ∧ m.registers rs2 = 0xFFFFFFFF) →
      (resMach (exec_Rtype m inst rd 0x4 rs1 rs2 0x01)).registers rd =
        imask (Int.tdiv (signed32 (m.registers rs1)) (signed32 (m.registers rs2))) 32 ∧
      (resMach (exec_Rtype m inst rd 0x6 rs1 rs2 0x01)).registers rd =
        imask (signed32 (m.registers rs1) -
          Int.tdiv (signed32 (m.registers rs1)) (signed32 (m.registers rs2)) *
            signed32 (m.registers rs2)) 32) := by
  have hz : signed32 0 = 0 := by decide
  have hm : signed32 0x80000000 = -2147483648 := by decide
  have h1m : signed32 0xFFFFFFFF = -1 := by decide
  refine ⟨?_, ?_, ?_, ?_, ?_, ?_, ?_⟩
  · intro h0
    rw [exec_Rtype]
    simp [setReg, h0, hz]
  · intro h1 h2
    rw [exec_Rtype]
    simp [setReg, h1, h2, hm, h1m]
  · intro h0
    rw [exec_Rtype]
    simp [setReg, h0, hz, land32_of_lt ha]
  · intro h1 h2
    rw [exec_Rtype]
    simp [setReg, h1, h2, hm, h1m]
  · intro h0
    rw [exec_Rtype]
    simp [setReg, h0]
  · intro h0
    rw [exec_Rtype]
    simp [setReg, h0, land32_of_lt ha]
  · intro h0 hcorner
    have hne : signed32 (m.registers rs2) ≠ 0 := by
      unfold signed32; split <;> omega
    have hno : ¬ (signed32 (m.registers rs1) = -2147483648 ∧
                  signed32 (m.registers rs2) = -1) := by
      rintro ⟨h1, h2⟩
      have e1 : m.registers rs1 = 0x80000000 := by
        unfold signed32 at h1; split at h1 <;> omega
      have e2 : m.registers rs2 = 0xFFFFFFFF := by
        unfold signed32 at h2; split at h2 <;> omega
      exact hcorner ⟨e1, e2⟩
    constructor
    · rw [exec_Rtype]
      simp [setReg, hne, hno]
    · rw [exec_Rtype]
      simp [setReg, hne, hno]

/-- Witness for claim C7 at a concrete input: on a reset CPU both source
registers hold 0, so the divisor is zero and DIV writes 0xFFFFFFFF. -/
theorem c7_division_witness :
    (CPU.init (mkRAM 4)).registers 2 = 0 ∧
    (resMach (exec_Rtype (CPU.init (mkRAM 4)) 0 5 0x4 1 2 0x01)).registers 5 = 0xFFFFFFFF :=
  ⟨rfl, (c7_division_corner_cases (CPU.init (mkRAM 4)) 0 5 1 2 (by decide) (by decide)).1 rfl⟩

/-- Claim C9: for every in-bounds address and every value, store_byte
followed by load_byte with signed=True returns the sign-extension of
v &&& 0xFF (v &&& 0xFF when below 0x80, otherwise (v &&& 0xFF) - 0x100),
and load_byte with signed=False returns v &&& 0xFF. -/
theorem c9_store_load_byte_roundtrip (ram : RAM) (a v : Nat)
    (hs : ram.size ≤ ram.memory.length) (ha : a < ram.size) :
    ∃ ram2 : RAM, ram.store_byte a v = .ok ram2 ∧
      ram2.load_byte a true =
        some (if v &&& 0xFF < 0x80 then ((v &&& 0xFF : Nat) : Int)
              else ((v &&& 0xFF : Nat) : Int) - 0x100) ∧
      ram2.load_byte a false = some ((v &&& 0xFF : Nat) : Int) := by
  have hlen : a < ram.memory.length := lt_of_lt_of_le ha hs
  have hget : (ram.memory.set a (v &&& 0xFF))[a]? = some (v &&& 0xFF) := by
    simp [List.getElem?_set_self, hlen]
  refine ⟨{ ram with memory := ram.memory.set a (v &&& 0xFF) }, ?_, ?_, ?_⟩
  · rw [RAM.store_byte, if_pos hlen]
  · rw [RAM.load_byte]
    simp only [hget]
    by_cases hv : v &&& 0xFF < 0x80 <;> simp [hv]
  · rw [RAM.load_byte]
    simp only [hget]
    simp

/-- Witness for claim C9 at a concrete input: storing 0x8A at address 3
of an 8-byte RAM and loading it back signed yields 0x8A - 0x100. -/
theorem c9_store_load_byte_witness :
    ((mkRAM 8).size ≤ (mkRAM 8).memory.length ∧ 3 < (mkRAM 8).size) ∧
    (∃ ram2 : RAM, (mkRAM 8).store_byte 3 0x8A = .ok ram2 ∧
      ram2.load_byte 3 true =
        some (if 0x8A &&& 0xFF < 0x80 then ((0x8A &&& 0xFF : Nat) : Int)
              else ((0x8A &&& 0xFF : Nat) : Int) - 0x100) ∧
      ram2.load_byte 3 false = some ((0x8A &&& 0xFF : Nat) : Int)) :=
  ⟨⟨by decide, by decide⟩,
   c9_store_load_byte_roundtrip (mkRAM 8) 3 0x8A (by decide) (by decide)⟩

/-- Claim C10: for the fast RAM class with the default 4-byte padding,
load_byte on any address in the padding region [size, size + 4) does not
raise MemoryAccessError (on a fresh RAM it returns the zero padding
byte); only accesses at or past the end of the padded backing buffer
raise. -/
theorem c10_padding_bytes_readable :
    (∀ s addr : Nat, s ≤ addr → addr < s + 4 → (mkRAM s).load_byte addr true = some 0) ∧
    (∀ (ram : RAM) (addr : Nat) (sg : Bool), ram.memory.length = ram.size + 4 →
       ram.size ≤ addr → addr < ram.size + 4 → ram.load_byte addr sg ≠ none) ∧
    (∀ (ram : RAM) (addr : Nat) (sg : Bool), ram.memory.length = ram.size + 4 →
       ram.size + 4 ≤ addr → ram.load_byte addr sg = none) := by
  refine ⟨?_, ?_, ?_⟩
  · intro s addr h1 h2
    have hget : (mkRAM s).memory[addr]? = some 0 := by
      simp only [mkRAM]
      simp [List.getElem?_replicate]
      omega
    rw [RAM.load_byte]
    simp only [hget]
    simp
  · intro ram addr sg hlen h1 h2
    have hlt : addr < ram.memory.length := by omega
    rw [RAM.load_byte]
    rw [List.getElem?_eq_getElem hlt]
    simp
  · intro ram addr sg hlen h1
    have hget : ram.memory[addr]? = none := by
      rw [List.getElem?_eq_none]
      omega
    rw [RAM.load_byte, hget]

/-- Witness for claim C10 at a concrete input: address 9 of an 8-byte
RAM (inside the 4 padding bytes) loads successfully and yields 0. -/
theorem c10_padding_witness :
    (8 ≤ 9 ∧ 9 < 8 + 4) ∧ (mkRAM 8).load_byte 9 true = some 0 :=
  ⟨⟨by decide, by decide⟩, c10_padding_bytes_readable.1 8 9 (by decide) (by decide)⟩
